import Mathlib

/-!
Shallow embedding of `src/Backend/server.js` (Student-Management-App):
an Express/Mongoose CRUD server for student and course records.

The document store is modelled as an in-memory `Store` holding the two
collections as lists (insertion order = list order).  Mongo `_id`s are
modelled as opaque strings carried on each document.  Each request handler
becomes a pure Lean function from its inputs and the current store to a
response (status code, message/payload) and the resulting store.
-/

/-- A `Student` document (schema at server.js:82-108).  `status` is kept as a
raw string: the schema constrains it to "active"/"inactive" (with default
"active"), and theorems that need that constraint take it as a hypothesis. -/
structure Student where
  sid : String
  name : String
  email : String
  course : String
  enrollmentDate : Nat
  status : String
  createdAt : Nat
deriving Repr, DecidableEq

/-- A `Course` document (schema at server.js:112-134). -/
structure Course where
  cid : String
  name : String
  description : String
  duration : String
  status : String
  createdAt : Nat
deriving Repr, DecidableEq

/-- The document store: both collections. -/
structure Store where
  students : List Student
  courses : List Course
deriving Repr, DecidableEq

/-- Result of `DELETE /api/courses/:id` (server.js:184-214): HTTP status,
response message, and the store after the request. -/
structure DeleteCourseResult where
  status : Nat
  message : String
  store : Store
deriving Repr, DecidableEq

/-- Handler for `DELETE /api/courses/:id` (server.js:184-214).  First counts students whose
`course` field equals the `:id` path parameter
(`Student.countDocuments({course: req.params.id})`); if positive, answers 400
without consulting the courses collection.  Otherwise
`Course.findByIdAndDelete(id)`: 404 when no course has that `_id`, else the
course is removed and the handler answers 200. -/
def deleteCourse (id : String) (st : Store) : DeleteCourseResult :=
  let enrolledStudents := st.students.countP (fun s => s.course == id)
  if 0 < enrolledStudents then
    { status := 400, message := "Cannot delete course with enrolled students", store := st }
  else
    match st.courses.find? (fun c => c.cid == id) with
    | none => { status := 404, message := "Course not found", store := st }
    | some _ =>
        { status := 200, message := "Course deleted successfully",
          store := { st with courses := st.courses.filter (fun c => c.cid != id) } }

/-- Course "CS101" as created in the end-to-end scenario, with its generated
Mongo id distinct from its name. -/
def cCS101 : Course :=
  { cid := "65a0f1", name := "CS101", description := "Intro", duration := "8w",
    status := "active", createdAt := 0 }

/-- A student enrolled by course *name*: `course` is "CS101", the course's
name, not its generated id. -/
def sAlice : Student :=
  { sid := "s1", name := "Alice", email := "alice@example.com", course := "CS101",
    enrollmentDate := 0, status := "active", createdAt := 0 }

/-- Store for the end-to-end scenario: the course and one student whose
`course` field matches the course's name. -/
def stCS101 : Store := { students := [sAlice], courses := [cCS101] }

/-- C1, counterexample.  In the store of the end-to-end scenario — the course
"CS101" with generated id "65a0f1" and a student whose `course` field equals
the course's *name* "CS101" — `DELETE /api/courses/65a0f1` does NOT answer 400:
the handler compares each student's `course` field against the path id
"65a0f1", finds no match, deletes the course and answers 200, and the course
record is gone from the store.  This falsifies the claim at a concrete input. -/
theorem deleteCourse_name_match_does_not_block :
    sAlice.course = cCS101.name ∧ sAlice ∈ stCS101.students ∧ cCS101 ∈ stCS101.courses ∧
    ¬ ((deleteCourse cCS101.cid stCS101).status = 400) ∧
    (deleteCourse cCS101.cid stCS101).status = 200 ∧
    cCS101 ∉ (deleteCourse cCS101.cid stCS101).store.courses := by
  decide

/-- C1, amended.  Deletion is blocked exactly by students whose `course` field
equals the id passed in the URL: for every store in which at least one
student's `course` field equals the `:id` path parameter,
`DELETE /api/courses/:id` answers 400 with
"Cannot delete course with enrolled students" and leaves the store unchanged. -/
theorem deleteCourse_blocked_when_student_course_eq_id (id : String) (st : Store)
    (h : ∃ s ∈ st.students, s.course = id) :
    (deleteCourse id st).status = 400 ∧
    (deleteCourse id st).message = "Cannot delete course with enrolled students" ∧
    (deleteCourse id st).store = st := by
  have hpos : 0 < st.students.countP (fun s => s.course == id) := by
    rw [List.countP_pos_iff]
    obtain ⟨s, hs, he⟩ := h
    exact ⟨s, hs, by simpa using he⟩
  simp [deleteCourse, hpos]

/-- C1, witness for the amended theorem at a concrete store: a student whose
`course` field is the very string passed as `:id`. -/
theorem deleteCourse_blocked_witness :
    (deleteCourse "CS101" { students := [sAlice], courses := [cCS101] }).status = 400 ∧
    (deleteCourse "CS101" { students := [sAlice], courses := [cCS101] }).message =
      "Cannot delete course with enrolled students" ∧
    (deleteCourse "CS101" { students := [sAlice], courses := [cCS101] }).store =
      { students := [sAlice], courses := [cCS101] } :=
  deleteCourse_blocked_when_student_course_eq_id "CS101"
    { students := [sAlice], courses := [cCS101] } ⟨sAlice, by decide, by decide⟩

/-- C6.  `DELETE /api/courses/:id` checks in this order: (1) if at least one
student's `course` field equals the id, it answers 400 with "Cannot delete
course with enrolled students" and changes nothing — without consulting the
courses collection at all (the store may or may not contain such a course);
(2) otherwise, if no course has that id, it answers 404 and changes nothing;
(3) otherwise it removes the course and answers 200 with a confirmation. -/
theorem deleteCourse_check_order (id : String) (st : Store) :
    (0 < st.students.countP (fun s => s.course == id) →
      deleteCourse id st =
        { status := 400, message := "Cannot delete course with enrolled students",
          store := st }) ∧
    (st.students.countP (fun s => s.course == id) = 0 →
      st.courses.find? (fun c => c.cid == id) = none →
      deleteCourse id st = { status := 404, message := "Course not found", store := st }) ∧
    (st.students.countP (fun s => s.course == id) = 0 →
      (∃ c, st.courses.find? (fun c => c.cid == id) = some c) →
      deleteCourse id st =
        { status := 200, message := "Course deleted successfully",
          store := { st with courses := st.courses.filter (fun c => c.cid != id) } }) := by
  refine ⟨fun hpos => by simp [deleteCourse, hpos], fun hz hnone => ?_, fun hz hsome => ?_⟩
  · simp [deleteCourse, hz, hnone]
  · obtain ⟨c, hc⟩ := hsome
    simp [deleteCourse, hz, hc]

/-- C6, witness: the three branches exercised at concrete inputs.  Branch (1)
is exercised on a store whose courses collection does NOT contain the id, so
the 400 answer demonstrably precedes any existence check. -/
theorem deleteCourse_check_order_witness :
    deleteCourse "CS101" { students := [sAlice], courses := [] } =
      { status := 400, message := "Cannot delete course with enrolled students",
        store := { students := [sAlice], courses := [] } } ∧
    deleteCourse "nope" { students := [sAlice], courses := [cCS101] } =
      { status := 404, message := "Course not found",
        store := { students := [sAlice], courses := [cCS101] } } ∧
    deleteCourse "65a0f1" { students := [], courses := [cCS101] } =
      { status := 200, message := "Course deleted successfully",
        store := { students := [], courses := [] } } := by
  refine ⟨(deleteCourse_check_order "CS101" { students := [sAlice], courses := [] }).1
      (by decide),
    (deleteCourse_check_order "nope" { students := [sAlice], courses := [cCS101] }).2.1
      (by decide) (by decide), ?_⟩
  have h := (deleteCourse_check_order "65a0f1" { students := [], courses := [cCS101] }).2.2
    (by decide) ⟨cCS101, by decide⟩
  rw [h]
  decide

/-- One group of the `$group: {_id: "$course", count: {$sum: 1}}` aggregation
(server.js:342-344). -/
structure CourseCount where
  key : String
  count : Nat
deriving Repr, DecidableEq

/-- The object returned by `getDashboardStats` (server.js:336-356).
`successRate` is an integer (the result of `Math.round`). -/
structure DashboardStats where
  totalStudents : Nat
  totalCourses : Nat
  activeStudents : Nat
  activeCourses : Nat
  graduates : Nat
  courseCounts : List CourseCount
  successRate : ℤ
deriving Repr, DecidableEq

/-- JavaScript `Math.round`: nearest integer, halves towards +∞; equal to
`⌊x + 1/2⌋` on the rationals. -/
def jsRound (x : ℚ) : ℤ := ⌊x + 1 / 2⌋

/-- The aggregator `getDashboardStats` (server.js:336-356).  Counts are `countDocuments`
calls; `courseCounts` groups the students by their `course` field (one group
per distinct value, in first-occurrence order, with the group's size);
`successRate` is `Math.round((graduates / totalStudents) * 100)` when there
are students and `0` otherwise. -/
def getDashboardStats (st : Store) : DashboardStats :=
  let totalStudents := st.students.length
  let graduates := st.students.countP (fun s => s.status == "inactive")
  let courseKeys := st.students.map (fun s => s.course)
  { totalStudents := totalStudents
    totalCourses := st.courses.length
    activeStudents := st.students.countP (fun s => s.status == "active")
    activeCourses := st.courses.countP (fun c => c.status == "active")
    graduates := graduates
    courseCounts := courseKeys.dedup.map (fun c => { key := c, count := courseKeys.count c })
    successRate :=
      if 0 < totalStudents then jsRound ((graduates : ℚ) / (totalStudents : ℚ) * 100) else 0 }

/-- C2.  Dashboard identities: `successRate` is 0 on an empty student
collection, otherwise the rounded percentage of graduates; and when every
student's status is one of "active"/"inactive" (the schema's enum), the
active and graduate counts partition the total. -/
theorem getDashboardStats_successRate_spec (st : Store) :
    ((getDashboardStats st).totalStudents = 0 → (getDashboardStats st).successRate = 0) ∧
    (0 < (getDashboardStats st).totalStudents →
      (getDashboardStats st).successRate =
        jsRound (((getDashboardStats st).graduates : ℚ) /
          ((getDashboardStats st).totalStudents : ℚ) * 100)) ∧
    ((∀ s ∈ st.students, s.status = "active" ∨ s.status = "inactive") →
      (getDashboardStats st).totalStudents =
        (getDashboardStats st).activeStudents + (getDashboardStats st).graduates) := by
  refine ⟨fun hz => ?_, fun hpos => ?_, fun henum => ?_⟩
  · have hlen : st.students.length = 0 := by simpa [getDashboardStats] using hz
    simp [getDashboardStats, hlen]
  · have hlen : 0 < st.students.length := by simpa [getDashboardStats] using hpos
    simp [getDashboardStats, hlen]
  · simp only [getDashboardStats]
    have hsplit := List.length_eq_countP_add_countP (fun s : Student => s.status == "active")
      (l := st.students)
    have hcongr : st.students.countP (fun a => decide ¬(a.status == "active") = true) =
        st.students.countP (fun s => s.status == "inactive") := by
      refine List.countP_congr (fun s hs => ?_)
      rcases henum s hs with h | h <;> simp [h]
    omega

/-- A second student, graduated (status "inactive"). -/
def sBob : Student :=
  { sid := "s2", name := "Bob", email := "bob@example.com", course := "CS101",
    enrollmentDate := 0, status := "inactive", createdAt := 1 }

/-- Store with one active and one inactive student. -/
def stTwo : Store := { students := [sAlice, sBob], courses := [cCS101] }

/-- C2, witness: the three dashboard identities at concrete stores — empty
store for the zero case, a one-active/one-inactive store for the others
(there `successRate = jsRound 50`). -/
theorem getDashboardStats_successRate_witness :
    (getDashboardStats { students := [], courses := [] }).successRate = 0 ∧
    (getDashboardStats stTwo).successRate =
      jsRound (((getDashboardStats stTwo).graduates : ℚ) /
        ((getDashboardStats stTwo).totalStudents : ℚ) * 100) ∧
    (getDashboardStats stTwo).totalStudents =
      (getDashboardStats stTwo).activeStudents + (getDashboardStats stTwo).graduates :=
  ⟨(getDashboardStats_successRate_spec { students := [], courses := [] }).1 rfl,
   (getDashboardStats_successRate_spec stTwo).2.1 (by decide),
   (getDashboardStats_successRate_spec stTwo).2.2 (by decide)⟩

/-- Summing the per-key occurrence counts over the deduplicated key list
recovers the length of the original list. -/
theorem sum_map_count_dedup {α : Type} [DecidableEq α] (l : List α) :
    (l.dedup.map (fun a => l.count a)).sum = l.length := by
  have h := Multiset.toFinset_sum_count_eq (α := α) (l : Multiset α)
  simp only [Multiset.toFinset, Multiset.coe_dedup] at h
  simpa [Finset.sum, Multiset.coe_count, Multiset.coe_card] using h

/-- C9.  The `courseCounts` groups partition the student collection: the sum
of the groups' `count` fields equals `totalStudents`. -/
theorem courseCounts_sum_eq_totalStudents (st : Store) :
    (((getDashboardStats st).courseCounts).map (fun g => g.count)).sum =
      (getDashboardStats st).totalStudents := by
  simp only [getDashboardStats, List.map_map]
  have h := sum_map_count_dedup (st.students.map (fun s => s.course))
  simpa [Function.comp] using h

/-- Partial update body for a student (`req.body` of
`PUT /api/students/:id`): absent fields are left untouched by
`findByIdAndUpdate`. -/
structure StudentPatch where
  name : Option String := none
  email : Option String := none
  course : Option String := none
  enrollmentDate : Option Nat := none
  status : Option String := none
deriving Repr, DecidableEq

/-- Apply a partial update to a student document, as
`findByIdAndUpdate(id, body)` does field by field. -/
def applyStudentPatch (p : StudentPatch) (s : Student) : Student :=
  { s with
    name := p.name.getD s.name
    email := p.email.getD s.email
    course := p.course.getD s.course
    enrollmentDate := p.enrollmentDate.getD s.enrollmentDate
    status := p.status.getD s.status }

/-- Partial update body for a course (`req.body` of `PUT /api/courses/:id`). -/
structure CoursePatch where
  name : Option String := none
  description : Option String := none
  duration : Option String := none
  status : Option String := none
deriving Repr, DecidableEq

/-- Apply a partial update to a course document. -/
def applyCoursePatch (p : CoursePatch) (c : Course) : Course :=
  { c with
    name := p.name.getD c.name
    description := p.description.getD c.description
    duration := p.duration.getD c.duration
    status := p.status.getD c.status }

/-- Result of `PUT /api/students/:id`: status, optional error message, the
updated document returned with `{new: true}` on success, and the store after
the request. -/
structure UpdateStudentResult where
  status : Nat
  message : Option String
  body : Option Student
  store : Store
deriving Repr, DecidableEq

/-- Result of `PUT /api/courses/:id`. -/
structure UpdateCourseResult where
  status : Nat
  message : Option String
  body : Option Course
  store : Store
deriving Repr, DecidableEq

/-- Handler for `PUT /api/students/:id` (server.js:257-278):
`Student.findByIdAndUpdate(id, body, {new: true})`; when no student has the
id it answers 404 "Student not found", otherwise it stores the patched
document and returns it with status 200. -/
def updateStudent (id : String) (p : StudentPatch) (st : Store) : UpdateStudentResult :=
  match st.students.find? (fun s => s.sid == id) with
  | none => { status := 404, message := some "Student not found", body := none, store := st }
  | some s =>
      let patched := applyStudentPatch p s
      { status := 200, message := none, body := some patched,
        store := { st with
          students := st.students.map (fun t => if t.sid == id then patched else t) } }

/-- Handler for `PUT /api/courses/:id` (server.js:165-182):
`Course.findByIdAndUpdate(id, body, {new: true})`; 404 "Course not found"
when no course has the id, otherwise stores the patched document and returns
it with status 200. -/
def updateCourse (id : String) (p : CoursePatch) (st : Store) : UpdateCourseResult :=
  match st.courses.find? (fun c => c.cid == id) with
  | none => { status := 404, message := some "Course not found", body := none, store := st }
  | some c =>
      let patched := applyCoursePatch p c
      { status := 200, message := none, body := some patched,
        store := { st with
          courses := st.courses.map (fun t => if t.cid == id then patched else t) } }

/-- C7.  Updating a non-existent identifier mutates nothing: when no student
(resp. course) carries the id, `PUT /api/students/:id`
(resp. `PUT /api/courses/:id`) answers 404 with the entity's not-found
message and the store is returned completely unchanged. -/
theorem update_missing_id_404_no_mutation (id : String) (sp : StudentPatch)
    (cp : CoursePatch) (st : Store) :
    (st.students.find? (fun s => s.sid == id) = none →
      updateStudent id sp st =
        { status := 404, message := some "Student not found", body := none, store := st }) ∧
    (st.courses.find? (fun c => c.cid == id) = none →
      updateCourse id cp st =
        { status := 404, message := some "Course not found", body := none, store := st }) := by
  constructor
  · intro hnone
    simp [updateStudent, hnone]
  · intro hnone
    simp [updateCourse, hnone]

/-- C7, witness: updating the unknown id "missing" on a populated store
leaves it untouched and answers 404, for students and for courses. -/
theorem update_missing_id_404_witness :
    updateStudent "missing" {} stTwo =
      { status := 404, message := some "Student not found", body := none, store := stTwo } ∧
    updateCourse "missing" {} stTwo =
      { status := 404, message := some "Course not found", body := none, store := stTwo } :=
  ⟨(update_missing_id_404_no_mutation "missing" {} {} stTwo).1 (by decide),
   (update_missing_id_404_no_mutation "missing" {} {} stTwo).2 (by decide)⟩

/-- Request body of `POST /api/courses` (`req.body`): candidate fields, any of
which may be absent. -/
structure CourseInput where
  name : Option String := none
  description : Option String := none
  duration : Option String := none
  status : Option String := none
deriving Repr, DecidableEq

/-- Result of `POST /api/courses`. -/
structure CreateCourseResult where
  status : Nat
  message : Option String
  body : Option Course
  store : Store
deriving Repr, DecidableEq

/-- Handler for `POST /api/courses` (server.js:150-163):
`new Course(req.body).save()`.  The schema (server.js:112-134) makes `name`,
`description` and `duration` required, restricts `status` to
"active"/"inactive" (default "active"), and declares `name` unique; a schema
validation failure or the unique-index violation rejects the save and the
handler answers 400, otherwise the document is persisted (with its generated
id and timestamps) and answered with 201. -/
def createCourse (input : CourseInput) (newId : String) (now : Nat) (st : Store) :
    CreateCourseResult :=
  match input.name, input.description, input.duration with
  | some n, some d, some du =>
      let status := input.status.getD "active"
      if !(status == "active" || status == "inactive") then
        { status := 400, message := some "Course validation failed", body := none, store := st }
      else if st.courses.any (fun c => c.name == n) then
        { status := 400, message := some "E11000 duplicate key error", body := none, store := st }
      else
        let created : Course :=
          { cid := newId, name := n, description := d, duration := du,
            status := status, createdAt := now }
        { status := 201, message := none, body := some created,
          store := { st with courses := st.courses ++ [created] } }
  | _, _, _ =>
      { status := 400, message := some "Course validation failed", body := none, store := st }

/-- C8.  Creating a course whose `name` is already taken always answers 400
and persists nothing: if the store holds exactly one course with that name
before the request, it still holds exactly one afterwards, and the store is
unchanged. -/
theorem createCourse_duplicate_name_rejected (input : CourseInput) (newId : String)
    (now : Nat) (st : Store) (n : String) (hname : input.name = some n)
    (hdup : st.courses.countP (fun c => c.name == n) = 1) :
    (createCourse input newId now st).status = 400 ∧
    (createCourse input newId now st).store = st ∧
    ((createCourse input newId now st).store.courses.countP (fun c => c.name == n) = 1) := by
  rcases input with ⟨iname, idesc, idur, istat⟩
  simp only at hname
  subst hname
  have hany : (st.courses.any (fun c => c.name == n)) = true := by
    rw [List.any_eq_true]
    exact List.countP_pos_iff.mp (by omega)
  cases idesc with
  | none => exact ⟨rfl, rfl, hdup⟩
  | some d =>
    cases idur with
    | none => exact ⟨rfl, rfl, hdup⟩
    | some du =>
      simp only [createCourse]
      split
      · exact ⟨rfl, rfl, hdup⟩
      · simp [hany, hdup]

/-- A duplicate create request: same name "CS101", fresh other fields. -/
def dupCS101Input : CourseInput :=
  { name := some "CS101", description := some "Intro again", duration := some "6w" }

/-- Store holding exactly one course named "CS101" and no students. -/
def stOneCourse : Store := { students := [], courses := [cCS101] }

/-- C8, witness: re-posting name "CS101" against a store already holding the
course leaves exactly the one record and answers 400. -/
theorem createCourse_duplicate_name_witness :
    (createCourse dupCS101Input "newid" 5 stOneCourse).status = 400 ∧
    (createCourse dupCS101Input "newid" 5 stOneCourse).store = stOneCourse ∧
    ((createCourse dupCS101Input "newid" 5 stOneCourse).store.courses.countP
      (fun c => c.name == "CS101") = 1) :=
  createCourse_duplicate_name_rejected dupCS101Input "newid" 5 stOneCourse "CS101"
    rfl (by decide)

/-- Matching a character pattern at the front of a text: the needle is a
leading segment of the hay. -/
def matchesAt : List Char → List Char → Bool
  | [], _ => true
  | _ :: _, [] => false
  | n :: ns, c :: cs => n == c && matchesAt ns cs

/-- Matching a character pattern anywhere in a text. -/
def occursIn (needle : List Char) : List Char → Bool
  | [] => matchesAt needle []
  | c :: rest => matchesAt needle (c :: rest) || occursIn needle rest

/-- ASCII lowering of one character, as the `$options: "i"` case folding
acts on the ASCII texts of this data model. -/
def lowerChar (c : Char) : Char :=
  if 65 ≤ c.toNat ∧ c.toNat ≤ 90 then Char.ofNat (c.toNat + 32) else c

/-- A string as its list of case-folded characters. -/
def lowerStr (s : String) : List Char := s.data.map lowerChar

/-- One token of the regex fragment the search terms are interpreted in: a
literal character, or the `.` wildcard matching any single character. -/
inductive RegTok
  | lit (c : Char)
  | dot
deriving Repr, DecidableEq

/-- JavaScript regex metacharacters (by code point:
`. ^ $ * + ? ( ) [ ] \x7b \x7d | \`).  A term containing none of them is a
regex denoting the literal term. -/
def isRegexMeta (c : Char) : Bool :=
  c.toNat ∈ [46, 94, 36, 42, 43, 63, 40, 41, 91, 93, 123, 125, 124, 92]

/-- The pattern a search term denotes, one token per character, case-folded:
`.` becomes the wildcard, every other character a literal.  (The other
metacharacters are not interpreted by this model; the faithfulness hypothesis
of the search theorems excludes all metacharacters.) -/
def regexTokens (term : String) : List RegTok :=
  term.data.map (fun c => if c == '.' then RegTok.dot else RegTok.lit (lowerChar c))

/-- One pattern token against one (case-folded) character. -/
def charMatches (t : RegTok) (c : Char) : Bool :=
  match t with
  | .dot => true
  | .lit l => l == c

/-- Matching a pattern at the front of a text. -/
def patMatchesAt : List RegTok → List Char → Bool
  | [], _ => true
  | _ :: _, [] => false
  | t :: ts, c :: cs => charMatches t c && patMatchesAt ts cs

/-- Matching a pattern anywhere in a text (regex search). -/
def patOccursIn (p : List RegTok) : List Char → Bool
  | [] => patMatchesAt p []
  | c :: rest => patMatchesAt p (c :: rest) || patOccursIn p rest

/-- Case-insensitive match of the term against `hay`: the semantics of the
Mongo `$regex: needle, $options: "i"` filters of server.js:305-311, for
terms within the modelled fragment (literal characters and the `.`
wildcard; a term with other metacharacters, or an invalid pattern, is
outside this model). -/
def ciContains (hay needle : String) : Bool :=
  patOccursIn (regexTokens needle) (lowerStr hay)

/-- The `$or` filter of the search handler (server.js:305-311): the term
matches the student's `name`, `course`, or `email`. -/
def studentMatches (term : String) (s : Student) : Bool :=
  ciContains s.name term || ciContains s.course term || ciContains s.email term

/-- The search handler's query (first-registered `GET /api/students/:id`,
server.js:301-321): all students passing the `$or` filter. -/
def searchStudents (term : String) (st : Store) : List Student :=
  st.students.filter (studentMatches term)

/-- Spec-side predicate, following the spec's words: the string case-insensitively
contains the term as a substring. -/
def ContainsCI (hay needle : String) : Prop :=
  ∃ pre post, lowerStr hay = pre ++ lowerStr needle ++ post

/-- Spec-side predicate, following the spec's words: the student's `name`,
`course`, or `email` case-insensitively contains the term (OR across the
three fields). -/
def SpecSearchMatch (term : String) (s : Student) : Prop :=
  ContainsCI s.name term ∨ ContainsCI s.course term ∨ ContainsCI s.email term

/-- Front matching is being a leading segment. -/
theorem matchesAt_iff (n : List Char) : ∀ h : List Char,
    (matchesAt n h = true ↔ ∃ t, h = n ++ t) := by
  induction n with
  | nil => intro h; simp [matchesAt]
  | cons c ns ih =>
    intro h
    cases h with
    | nil =>
      simp only [matchesAt]
      constructor
      · intro hf; simp at hf
      · rintro ⟨t, ht⟩; simp at ht
    | cons d hs =>
      simp only [matchesAt, Bool.and_eq_true, beq_iff_eq, ih]
      constructor
      · rintro ⟨hcd, t, ht⟩
        subst hcd
        exact ⟨t, by rw [ht]; rfl⟩
      · rintro ⟨t, ht⟩
        rw [List.cons_append, List.cons_eq_cons] at ht
        exact ⟨ht.1.symm, t, ht.2⟩

/-- Occurring anywhere is splitting the text around the needle. -/
theorem occursIn_iff (n : List Char) : ∀ h : List Char,
    (occursIn n h = true ↔ ∃ pre post, h = pre ++ n ++ post) := by
  intro h
  induction h with
  | nil =>
    simp only [occursIn, matchesAt_iff]
    constructor
    · rintro ⟨t, ht⟩
      exact ⟨[], t, by simpa using ht⟩
    · rintro ⟨pre, post, hp⟩
      cases pre with
      | nil => exact ⟨post, by simpa using hp⟩
      | cons a as => simp at hp
  | cons c rest ih =>
    simp only [occursIn, Bool.or_eq_true, matchesAt_iff, ih]
    constructor
    · rintro (⟨t, ht⟩ | ⟨pre, post, hp⟩)
      · exact ⟨[], t, by simpa using ht⟩
      · exact ⟨c :: pre, post, by simp [hp]⟩
    · rintro ⟨pre, post, hp⟩
      cases pre with
      | nil => exact Or.inl ⟨post, by simpa using hp⟩
      | cons p ps =>
        simp only [List.cons_append, List.cons_eq_cons] at hp
        exact Or.inr ⟨ps, post, hp.2⟩

/-- On all-literal patterns, pattern front-matching is plain front-matching. -/
theorem patMatchesAt_lit (n : List Char) : ∀ h : List Char,
    patMatchesAt (n.map RegTok.lit) h = matchesAt n h := by
  induction n with
  | nil => intro h; rfl
  | cons c ns ih =>
    intro h
    cases h with
    | nil => rfl
    | cons d hs => simp [patMatchesAt, matchesAt, charMatches, ih]

/-- On all-literal patterns, regex search is plain containment search. -/
theorem patOccursIn_lit (n : List Char) : ∀ h : List Char,
    patOccursIn (n.map RegTok.lit) h = occursIn n h := by
  intro h
  induction h with
  | nil => simp [patOccursIn, occursIn, patMatchesAt_lit]
  | cons c rest ih => simp [patOccursIn, occursIn, patMatchesAt_lit, ih]

/-- A term free of regex metacharacters denotes the all-literal pattern of its
case-folded characters. -/
theorem regexTokens_eq_lit (needle : String)
    (hlit : ∀ c ∈ needle.data, isRegexMeta c = false) :
    regexTokens needle = (lowerStr needle).map RegTok.lit := by
  unfold regexTokens lowerStr
  rw [List.map_map]
  refine List.map_congr_left (fun c hc => ?_)
  have hdot : ¬ ((c == '.') = true) := by
    intro hdc
    have hceq : c = '.' := by simpa using hdc
    rw [hceq] at hc
    exact absurd (hlit _ hc) (by decide)
  simp [Function.comp, hdot]

/-- For a term free of regex metacharacters, the computable filter agrees
with the spec-side literal-containment predicate. -/
theorem ciContains_iff (needle : String)
    (hlit : ∀ c ∈ needle.data, isRegexMeta c = false) (hay : String) :
    ciContains hay needle = true ↔ ContainsCI hay needle := by
  rw [ciContains, regexTokens_eq_lit needle hlit, patOccursIn_lit]
  exact occursIn_iff (lowerStr needle) (lowerStr hay)

/-- C5, amended.  For a non-empty search term free of regex metacharacters
(for which the term's regex denotes the literal term), the search returns
exactly the students one of whose `name`, `course`, `email` case-insensitively
contains the term as a substring: membership in the result is equivalent to
being a stored student satisfying the spec's three-field OR predicate. -/
theorem searchStudents_iff_specMatch (term : String) (_h : term ≠ "")
    (hlit : ∀ c ∈ term.data, isRegexMeta c = false) (st : Store) (s : Student) :
    s ∈ searchStudents term st ↔ s ∈ st.students ∧ SpecSearchMatch term s := by
  simp only [searchStudents, List.mem_filter, studentMatches, SpecSearchMatch,
    Bool.or_eq_true, ciContains_iff term hlit]
  rw [or_assoc]

/-- A student with no literal dot in any searched field. -/
def sNoDot : Student :=
  { sid := "s6", name := "Zed", email := "zed@mailnet", course := "Art",
    enrollmentDate := 0, status := "active", createdAt := 5 }

/-- C5, counterexample.  For the non-empty search term "." the claim fails:
"." is a regex matching any single character, so the query returns `sNoDot`
— none of whose `name`, `course`, `email` contains the term "." as a literal
substring.  The result is not "exactly the students whose fields contain the
term". -/
theorem searchStudents_dot_term_not_substring :
    ("." : String) ≠ "" ∧
    sNoDot ∈ searchStudents "." { students := [sNoDot], courses := [] } ∧
    ¬ SpecSearchMatch "." sNoDot := by
  refine ⟨by decide, by decide, ?_⟩
  intro hm
  unfold SpecSearchMatch at hm
  rcases hm with h | h | h <;>
    exact absurd ((occursIn_iff _ _).mpr h) (by decide)

/-- A student named "Engineering". -/
def sEngineering : Student :=
  { sid := "s3", name := "Engineering", email := "e@x.com", course := "Math",
    enrollmentDate := 0, status := "active", createdAt := 2 }

/-- A student named "Engels". -/
def sEngels : Student :=
  { sid := "s4", name := "Engels", email := "f@x.com", course := "History",
    enrollmentDate := 0, status := "active", createdAt := 3 }

/-- A student whose only near-miss field is the email "Angel@x.com". -/
def sAngel : Student :=
  { sid := "s5", name := "Maria", email := "Angel@x.com", course := "Art",
    enrollmentDate := 0, status := "active", createdAt := 4 }

/-- Store for the search examples. -/
def stSearch : Store := { students := [sEngineering, sEngels, sAngel], courses := [] }

/-- C5, witness: searching "eng" — a non-empty, metacharacter-free term —
returns "Engineering"
and "Engels" (their names contain "eng" case-insensitively) and not the
student whose email is "Angel@x.com". -/
theorem searchStudents_iff_specMatch_witness :
    sEngineering ∈ searchStudents "eng" stSearch ∧
    sEngels ∈ searchStudents "eng" stSearch ∧
    sAngel ∉ searchStudents "eng" stSearch :=
  ⟨(searchStudents_iff_specMatch "eng" (by decide) (by decide) stSearch sEngineering).mpr
      ⟨by decide, Or.inl ⟨[], "ineering".data, by decide⟩⟩,
   (searchStudents_iff_specMatch "eng" (by decide) (by decide) stSearch sEngels).mpr
      ⟨by decide, Or.inl ⟨[], "els".data, by decide⟩⟩,
   by decide⟩

/-- One tag per `app.<method>(path, handler)` registration in server.js. -/
inductive HandlerTag
  | listCourses
  | createCourse
  | updateCourse
  | deleteCourse
  | studentsCourseLookup
  | listStudents
  | createStudent
  | updateStudent
  | deleteStudent
  | searchStudents
  | dashboardStats
  | health
  | healthDetailed
  | getStudentById
deriving Repr, DecidableEq

/-- The Express routing table in registration (= source) order.  Note the two
pairs of duplicate registrations: `GET /api/students` at server.js:216 (a
handler that looks up a Course from a non-existent `Id` route parameter) and
server.js:230 (the student list), and `GET /api/students/:id` at
server.js:301 (search) and server.js:413 (fetch by id). -/
def registeredRoutes : List (String × String × HandlerTag) :=
  [("GET", "/api/courses", .listCourses),
   ("POST", "/api/courses", .createCourse),
   ("PUT", "/api/courses/:id", .updateCourse),
   ("DELETE", "/api/courses/:id", .deleteCourse),
   ("GET", "/api/students", .studentsCourseLookup),
   ("GET", "/api/students", .listStudents),
   ("POST", "/api/students", .createStudent),
   ("PUT", "/api/students/:id", .updateStudent),
   ("DELETE", "/api/students/:id", .deleteStudent),
   ("GET", "/api/students/:id", .searchStudents),
   ("GET", "/api/dashboard/stats", .dashboardStats),
   ("GET", "/api/health", .health),
   ("GET", "/health/detailed", .healthDetailed),
   ("GET", "/api/students/:id", .getStudentById)]

/-- Express dispatch: a request is served by the FIRST registered handler
whose method/path matches (none of these handlers calls `next()`, so no
later handler on the same pair is ever reached). -/
def dispatch (method path : String) : Option HandlerTag :=
  (registeredRoutes.find? (fun r => r.1 == method && r.2.1 == path)).map
    (fun r => r.2.2)

/-- A JSON response of the read-only endpoints: status plus whichever payload
shape the handler produces. -/
structure Response where
  status : Nat
  message : Option String := none
  students : List Student := []
  courses : List Course := []
  course : Option Course := none
  student : Option Student := none
  stats : Option DashboardStats := none
deriving Repr, DecidableEq

/-- Lookup in a key/value list (route params, query string). -/
def lookupStr (ps : List (String × String)) (k : String) : Option String :=
  (ps.find? (fun p => p.1 == k)).map (fun p => p.2)

/-- Student list in creation-time-descending order
(`Student.find().sort({createdAt: -1})`, server.js:232). -/
def sortStudentsByCreatedDesc (l : List Student) : List Student :=
  l.mergeSort (fun a b => decide (b.createdAt ≤ a.createdAt))

/-- Course list in name-ascending order (`Course.find().sort({name: 1})`,
server.js:141). -/
def sortCoursesByName (l : List Course) : List Course :=
  l.mergeSort (fun a b => decide (a.name ≤ b.name))

/-- Semantics of the store-reading GET handlers, given the route params and
query of the request.  `none` for the tags that are not store-reading GETs
(the mutating handlers are modelled by their own functions above, and the
two health endpoints report process state outside the store model).
`studentsCourseLookup` is the handler at server.js:216: it reads
`req.params.Id` — no such route parameter exists on `/api/students` — and
`Course.findById(undefined)` matches no document, so it answers 404. -/
def runGetHandler (h : HandlerTag) (params query : List (String × String))
    (st : Store) : Option Response :=
  match h with
  | .listCourses => some { status := 200, courses := sortCoursesByName st.courses }
  | .studentsCourseLookup =>
      match (lookupStr params "Id").bind (fun i => st.courses.find? (fun c => c.cid == i)) with
      | none => some { status := 404, message := some "Course not found" }
      | some c => some { status := 200, course := some c }
  | .listStudents =>
      some { status := 200, students := sortStudentsByCreatedDesc st.students }
  | .searchStudents =>
      some { status := 200, students := searchStudents ((lookupStr query "q").getD "") st }
  | .dashboardStats => some { status := 200, stats := some (getDashboardStats st) }
  | .getStudentById =>
      match (lookupStr params "id").bind (fun i => st.students.find? (fun s => s.sid == i)) with
      | none => some { status := 404, message := some "Student not found" }
      | some s => some { status := 200, student := some s }
  | _ => none

/-- C4.  `GET /api/students/:id` dispatches to the first-registered handler —
the search handler — never to the later fetch-by-id handler; for every id,
query term and store, the response is 200 with exactly the students matching
the term. -/
theorem getStudentsId_dispatches_to_search (idv q : String) (st : Store) :
    dispatch "GET" "/api/students/:id" = some HandlerTag.searchStudents ∧
    dispatch "GET" "/api/students/:id" ≠ some HandlerTag.getStudentById ∧
    (dispatch "GET" "/api/students/:id").bind
        (fun h => runGetHandler h [("id", idv)] [("q", q)] st) =
      some { status := 200, students := searchStudents q st } :=
  ⟨rfl, by decide, rfl⟩

/-- C3, behaviour at the failing input.  `GET /api/students` dispatches to
the first-registered handler at that path (server.js:216), which answers 404
"Course not found" on the populated store `stTwo` — not 200 with the
creation-time-descending student list that the shadowed second handler
(server.js:230) would produce. -/
theorem getStudents_route_shadowed :
    dispatch "GET" "/api/students" = some HandlerTag.studentsCourseLookup ∧
    (dispatch "GET" "/api/students").bind (fun h => runGetHandler h [] [] stTwo) =
      some { status := 404, message := some "Course not found" } ∧
    ({ status := 404, message := some "Course not found" } : Response) ≠
      { status := 200, students := sortStudentsByCreatedDesc stTwo.students } ∧
    runGetHandler HandlerTag.listStudents [] [] stTwo =
      some { status := 200, students := sortStudentsByCreatedDesc stTwo.students } :=
  ⟨rfl, rfl, by simp, rfl⟩

/-- JavaScript `%` on the nonnegative rationals (uptimes): the remainder
`a - b * floor(a / b)`. -/
def jsFmod (a b : ℚ) : ℚ := a - b * (⌊a / b⌋ : ℤ)

/-- Whole days of an uptime (`Math.floor(seconds / (3600 * 24))`,
server.js:428). -/
def daysOf (s : ℚ) : ℤ := ⌊s / (3600 * 24)⌋

/-- Whole remaining hours (`Math.floor((seconds % (3600 * 24)) / 3600)`). -/
def hoursOf (s : ℚ) : ℤ := ⌊jsFmod s (3600 * 24) / 3600⌋

/-- Whole remaining minutes (`Math.floor((seconds % 3600) / 60)`). -/
def minutesOf (s : ℚ) : ℤ := ⌊jsFmod s 3600 / 60⌋

/-- Whole remaining seconds (`Math.floor(seconds % 60)`). -/
def remSecondsOf (s : ℚ) : ℤ := ⌊jsFmod s 60⌋

/-- The helper `formatUptime` (server.js:427-439): each nonzero component is
rendered with its unit suffix, and the parts are joined with single spaces.
Zero-valued components are skipped. -/
def formatUptime (s : ℚ) : String :=
  String.intercalate " "
    ((if 0 < daysOf s then [toString (daysOf s) ++ "d"] else []) ++
     (if 0 < hoursOf s then [toString (hoursOf s) ++ "h"] else []) ++
     (if 0 < minutesOf s then [toString (minutesOf s) ++ "m"] else []) ++
     (if 0 < remSecondsOf s then [toString (remSecondsOf s) ++ "s"] else []))

/-- C10.  For an uptime below one second, every component — days, hours,
minutes and the floored remaining seconds — is zero, so no part is emitted
and `formatUptime` returns the empty string (not "0s"). -/
theorem formatUptime_sub_second_empty (s : ℚ) (h0 : 0 ≤ s) (h1 : s < 1) :
    formatUptime s = "" := by
  have hq : ∀ b : ℚ, 1 ≤ b → ⌊s / b⌋ = 0 := by
    intro b hb
    have hbpos : (0 : ℚ) < b := lt_of_lt_of_le one_pos hb
    rw [Int.floor_eq_zero_iff, Set.mem_Ico]
    exact ⟨div_nonneg h0 (le_of_lt hbpos), by rw [div_lt_one hbpos]; linarith⟩
  have hfm : ∀ b : ℚ, 1 ≤ b → jsFmod s b = s := by
    intro b hb
    rw [jsFmod, hq b hb]
    simp
  have hd : daysOf s = 0 := by rw [daysOf]; exact hq _ (by norm_num)
  have hh : hoursOf s = 0 := by
    rw [hoursOf, hfm _ (by norm_num)]; exact hq _ (by norm_num)
  have hm : minutesOf s = 0 := by
    rw [minutesOf, hfm _ (by norm_num)]; exact hq _ (by norm_num)
  have hr : remSecondsOf s = 0 := by
    rw [remSecondsOf, hfm _ (by norm_num), Int.floor_eq_zero_iff, Set.mem_Ico]
    exact ⟨h0, h1⟩
  rw [formatUptime, hd, hh, hm, hr]
  rfl

/-- C10, witness: half a second of uptime formats to the empty string. -/
theorem formatUptime_sub_second_witness : formatUptime (1 / 2) = "" :=
  formatUptime_sub_second_empty (1 / 2) (by norm_num) (by norm_num)
